import Mathlib

/-!
Verification development for the RiskRadar label/feature/risk core.

Shallow embedding conventions:
* Numeric values (floats of the source) are modelled as rationals (ℚ), so all
  arithmetic is exact and all definitions are executable.
* Timestamps are rationals measured in hours; a timedelta of 72 hours is the
  rational 72, a timedelta of 7 days is 168.  A calendar date is the floor of
  the timestamp divided by 24.
* The transcendental primitives used by the haversine formula (sin, cos, sqrt,
  atan2, pi) are abstracted into a TrigOps record: both the scalar math-library
  calls and the numpy array calls of the source compute the same mathematical
  functions, so one record models both.  Every geometric definition is
  parametric in such a record.
* pandas DataFrames become structures holding a list of row records plus the
  column-level facts the source branches on (datetime dtype of the timestamp
  column, presence of the optional daynight column).  pd.to_datetime is the
  identity on the modelled timestamp value and flips the dtype flag.
-/

namespace GeoUtils

/-- Abstract transcendental operations shared by the scalar math-library calls
and the elementwise numpy calls of geo_utils.py. -/
structure TrigOps where
  sin : ℚ → ℚ
  cos : ℚ → ℚ
  sqrt : ℚ → ℚ
  atan2 : ℚ → ℚ → ℚ
  pi : ℚ

/-- math.radians / np.radians: degrees to radians. -/
def radians (ops : TrigOps) (x : ℚ) : ℚ :=
  x * ops.pi / 180

/-- geo_utils.haversine_distance: great-circle distance between two points
(Earth radius 6371 km). -/
def haversine_distance (ops : TrigOps) (lat1 lon1 lat2 lon2 : ℚ) : ℚ :=
  let R : ℚ := 6371
  let lat1_rad := radians ops lat1
  let lon1_rad := radians ops lon1
  let lat2_rad := radians ops lat2
  let lon2_rad := radians ops lon2
  let dlat := lat2_rad - lat1_rad
  let dlon := lon2_rad - lon1_rad
  let a := ops.sin (dlat / 2) ^ 2 + ops.cos lat1_rad * ops.cos lat2_rad * ops.sin (dlon / 2) ^ 2
  let c := 2 * ops.atan2 (ops.sqrt a) (ops.sqrt (1 - a))
  R * c

/-- geo_utils.haversine_distance_vectorized: the same formula evaluated with
numpy broadcasting; arrays are lists and every numpy array operation acts
elementwise. -/
def haversine_distance_vectorized (ops : TrigOps) (lat1 lon1 : ℚ)
    (lat2_array lon2_array : List ℚ) : List ℚ :=
  let R : ℚ := 6371
  let lat1_rad := radians ops lat1
  let lon1_rad := radians ops lon1
  let lat2_rad := lat2_array.map (radians ops)
  let lon2_rad := lon2_array.map (radians ops)
  let dlat := lat2_rad.map (fun x => x - lat1_rad)
  let dlon := lon2_rad.map (fun x => x - lon1_rad)
  let a := List.zipWith
    (fun dlt p =>
      ops.sin (dlt / 2) ^ 2 + ops.cos lat1_rad * ops.cos p.1 * ops.sin (p.2 / 2) ^ 2)
    dlat (lat2_rad.zip dlon)
  let c := a.map (fun x => 2 * ops.atan2 (ops.sqrt x) (ops.sqrt (1 - x)))
  c.map (fun x => R * x)

end GeoUtils

namespace Pandas

/-- Series.max of the source; only ever applied behind a nonemptiness guard,
so the value on the empty list is irrelevant. -/
def seriesMax : List ℚ → ℚ
  | [] => 0
  | x :: xs => xs.foldl max x

/-- Series.mean of the source; only ever applied behind a nonemptiness guard. -/
def seriesMean (l : List ℚ) : ℚ :=
  l.sum / (l.length : ℚ)

/-- pd.to_datetime on one already-meaningful modelled timestamp: the parse
preserves the denoted instant. -/
def to_datetime (t : ℚ) : ℚ := t

end Pandas

namespace SensorLabels

/-- A site dict with name, lat, lon. -/
structure Site where
  name : String
  lat : ℚ
  lon : ℚ
deriving DecidableEq

/-- One FIRMS detection row (columns used by sensor_labels.py and
sensor_features.py). -/
structure FireEvent where
  latitude : ℚ
  longitude : ℚ
  acq_date : ℚ
  confidence : ℚ
  brightness : ℚ
  frp : ℚ
  daynight : Char
deriving DecidableEq

/-- The FIRMS DataFrame: rows plus the column-level facts the source branches
on (dtype of acq_date, presence of the optional daynight column). -/
structure FirmsDF where
  events : List FireEvent
  acq_date_is_datetime : Bool
  has_daynight : Bool
deriving DecidableEq

/-- One USGS catalog row. -/
structure QuakeEvent where
  latitude : ℚ
  longitude : ℚ
  time : ℚ
  mag : ℚ
deriving DecidableEq

/-- The USGS DataFrame: rows plus the dtype of the time column. -/
structure UsgsDF where
  events : List QuakeEvent
  time_is_datetime : Bool
deriving DecidableEq

def RADIUS_KM : ℚ := 100
def PREDICTION_HORIZON_HOURS : ℚ := 72
def FIRMS_CONFIDENCE_THRESHOLD : ℚ := 70
def FIRMS_MIN_FRP : ℚ := 30
def FIRMS_MIN_DETECTIONS : ℕ := 1
def USGS_RADIUS_KM : ℚ := 150
def USGS_MIN_MAGNITUDE : ℚ := 2
def USGS_MIN_EVENTS : ℕ := 1
def USGS_SIGNIFICANT_MAG : ℚ := 4

/-- The dtype-conversion prologue of build_fire_label: when acq_date is not a
datetime column, parse it (on a copy; the caller-visible frame is handled by
the state-passing wrappers below). -/
def ensure_datetime_firms (df : FirmsDF) : FirmsDF :=
  if df.acq_date_is_datetime then df
  else
    { events := df.events.map (fun e => { e with acq_date := Pandas.to_datetime e.acq_date })
      acq_date_is_datetime := true
      has_daynight := df.has_daynight }

/-- The dtype-conversion prologue of build_quake_label. -/
def ensure_datetime_usgs (df : UsgsDF) : UsgsDF :=
  if df.time_is_datetime then df
  else
    { events := df.events.map (fun e => { e with time := Pandas.to_datetime e.time })
      time_is_datetime := true }

/-- The row-selection pattern rows[distances < radius_km] where distances is
haversine_distance_vectorized over the latitude/longitude columns
(sensor_labels.py, spatial filter step of both label builders). -/
def filter_within_radius {α : Type} (ops : GeoUtils.TrigOps) (lat lon radius_km : ℚ)
    (latOf lonOf : α → ℚ) (rows : List α) : List α :=
  let distances :=
    GeoUtils.haversine_distance_vectorized ops lat lon (rows.map latOf) (rows.map lonOf)
  ((rows.zip distances).filter (fun x => decide (x.2 < radius_km))).map Prod.fst

/-- The event rows counted by build_fire_label: horizon window, confidence,
FRP, optional daylight filter, then the guarded vectorized spatial filter. -/
def future_fires (ops : GeoUtils.TrigOps) (site : Site) (target_date : ℚ) (firms_df : FirmsDF)
    (confidence_threshold min_frp radius_km : ℚ) : List FireEvent :=
  let future_start := target_date
  let future_end := target_date + PREDICTION_HORIZON_HOURS
  let df := ensure_datetime_firms firms_df
  let base := df.events.filter (fun e =>
    decide (future_start ≤ e.acq_date) && decide (e.acq_date < future_end) &&
    decide (confidence_threshold ≤ e.confidence) && decide (min_frp ≤ e.frp) &&
    (!df.has_daynight || decide (e.daynight = 'D')))
  if 0 < base.length then
    filter_within_radius ops site.lat site.lon radius_km
      (fun e => e.latitude) (fun e => e.longitude) base
  else base

/-- Metadata dict of build_fire_label; all fields are present by construction
whatever the label value. -/
structure FireMeta where
  num_detections : ℕ
  max_brightness : ℚ
  avg_brightness : ℚ
  max_frp : ℚ
  future_window : ℚ × ℚ
deriving DecidableEq

/-- sensor_labels.build_fire_label. -/
def build_fire_label (ops : GeoUtils.TrigOps) (site : Site) (target_date : ℚ)
    (firms_df : FirmsDF) (confidence_threshold min_frp : ℚ) (min_detections : ℕ)
    (radius_km : ℚ) : ℕ × FireMeta :=
  let future_start := target_date
  let future_end := target_date + PREDICTION_HORIZON_HOURS
  let ff := future_fires ops site target_date firms_df confidence_threshold min_frp radius_km
  let num_detections := ff.length
  let label := if min_detections ≤ num_detections then 1 else 0
  (label,
    { num_detections := num_detections
      max_brightness := if 0 < num_detections then Pandas.seriesMax (ff.map (·.brightness)) else 0
      avg_brightness := if 0 < num_detections then Pandas.seriesMean (ff.map (·.brightness)) else 0
      max_frp := if 0 < num_detections then Pandas.seriesMax (ff.map (·.frp)) else 0
      future_window := (future_start, future_end) })

/-- The event rows counted by build_quake_label. -/
def future_quakes (ops : GeoUtils.TrigOps) (site : Site) (target_date : ℚ) (usgs_df : UsgsDF)
    (min_magnitude radius_km : ℚ) : List QuakeEvent :=
  let future_start := target_date
  let future_end := target_date + PREDICTION_HORIZON_HOURS
  let df := ensure_datetime_usgs usgs_df
  let base := df.events.filter (fun e =>
    decide (future_start ≤ e.time) && decide (e.time < future_end) &&
    decide (min_magnitude ≤ e.mag))
  if 0 < base.length then
    filter_within_radius ops site.lat site.lon radius_km
      (fun e => e.latitude) (fun e => e.longitude) base
  else base

/-- Metadata dict of build_quake_label. -/
structure QuakeMeta where
  num_events : ℕ
  max_magnitude : ℚ
  avg_magnitude : ℚ
  num_significant : ℕ
  future_window : ℚ × ℚ
deriving DecidableEq

/-- sensor_labels.build_quake_label. -/
def build_quake_label (ops : GeoUtils.TrigOps) (site : Site) (target_date : ℚ)
    (usgs_df : UsgsDF) (min_magnitude : ℚ) (min_events : ℕ) (radius_km : ℚ) :
    ℕ × QuakeMeta :=
  let future_start := target_date
  let future_end := target_date + PREDICTION_HORIZON_HOURS
  let fq := future_quakes ops site target_date usgs_df min_magnitude radius_km
  let num_events := fq.length
  let label := if min_events ≤ num_events then 1 else 0
  (label,
    { num_events := num_events
      max_magnitude := if 0 < num_events then Pandas.seriesMax (fq.map (·.mag)) else 0
      avg_magnitude := if 0 < num_events then Pandas.seriesMean (fq.map (·.mag)) else 0
      num_significant :=
        if 0 < num_events then
          (fq.filter (fun e => decide (USGS_SIGNIFICANT_MAG ≤ e.mag))).length
        else 0
      future_window := (future_start, future_end) })

/-- State-passing wrapper for build_fire_label: the pair's second component is
the event store the caller observes after the call.  The source converts the
timestamp dtype only after rebinding its local name to a copy
(firms_df = firms_df.copy()), so the caller-visible store is the unchanged
input frame. -/
def build_fire_label_call (ops : GeoUtils.TrigOps) (site : Site) (target_date : ℚ)
    (firms_df : FirmsDF) (confidence_threshold min_frp : ℚ) (min_detections : ℕ)
    (radius_km : ℚ) : (ℕ × FireMeta) × FirmsDF :=
  (build_fire_label ops site target_date firms_df confidence_threshold min_frp
      min_detections radius_km,
    firms_df)

/-- State-passing wrapper for build_quake_label (same copy-before-convert
discipline as build_fire_label_call). -/
def build_quake_label_call (ops : GeoUtils.TrigOps) (site : Site) (target_date : ℚ)
    (usgs_df : UsgsDF) (min_magnitude : ℚ) (min_events : ℕ) (radius_km : ℚ) :
    (ℕ × QuakeMeta) × UsgsDF :=
  (build_quake_label ops site target_date usgs_df min_magnitude min_events radius_km,
    usgs_df)

end SensorLabels

namespace SensorFeatures

open SensorLabels (Site FireEvent FirmsDF QuakeEvent UsgsDF
  ensure_datetime_firms ensure_datetime_usgs)

def RADIUS_KM : ℚ := 50
def FIRMS_CONFIDENCE_THR : ℚ := 70
def FIRMS_MIN_FRP : ℚ := 30

/-- The per-lookback FIRMS selection of extract_firms_historical_features:
past half-open window [target_date - lookback_days, target_date), confidence,
FRP and optional daylight filters, then the guarded row-wise scalar spatial
filter (the source applies haversine_distance per row here, not the
vectorized variant). -/
def past_fires (ops : GeoUtils.TrigOps) (site : Site) (target_date : ℚ)
    (firms_df : FirmsDF) (lookback_days : ℕ) : List FireEvent :=
  let past_start := target_date - (lookback_days : ℚ) * 24
  let past_end := target_date
  let df := ensure_datetime_firms firms_df
  let base := df.events.filter (fun e =>
    decide (past_start ≤ e.acq_date) && decide (e.acq_date < past_end) &&
    decide (FIRMS_CONFIDENCE_THR ≤ e.confidence) && decide (FIRMS_MIN_FRP ≤ e.frp) &&
    (!df.has_daynight || decide (e.daynight = 'D')))
  if 0 < base.length then
    base.filter (fun row =>
      decide (GeoUtils.haversine_distance ops site.lat site.lon row.latitude row.longitude
        < RADIUS_KM))
  else base

/-- Feature dict of extract_firms_historical_features. -/
structure FirmsFeatures where
  fires_7d_count : ℕ
  fires_30d_count : ℕ
  fire_max_brightness_7d : ℚ
  fire_avg_brightness_7d : ℚ
  fire_max_frp_7d : ℚ
  fire_avg_frp_7d : ℚ
  fires_persistent_days : ℕ
  days_since_last_fire : ℤ
deriving DecidableEq

/-- sensor_features.extract_firms_historical_features.  A calendar date
(dt.date of a timestamp measured in hours) is the floor of timestamp / 24,
and (target_date - most_recent).days floors the timedelta to whole days. -/
def extract_firms_historical_features (ops : GeoUtils.TrigOps) (site : Site)
    (target_date : ℚ) (firms_df : FirmsDF) (lookback_days_short lookback_days_long : ℕ) :
    FirmsFeatures :=
  let past_fires_short := past_fires ops site target_date firms_df lookback_days_short
  let past_fires_long := past_fires ops site target_date firms_df lookback_days_long
  { fires_7d_count := past_fires_short.length
    fires_30d_count := past_fires_long.length
    fire_max_brightness_7d :=
      if 0 < past_fires_short.length then Pandas.seriesMax (past_fires_short.map (·.brightness))
      else 0
    fire_avg_brightness_7d :=
      if 0 < past_fires_short.length then Pandas.seriesMean (past_fires_short.map (·.brightness))
      else 0
    fire_max_frp_7d :=
      if 0 < past_fires_short.length then Pandas.seriesMax (past_fires_short.map (·.frp))
      else 0
    fire_avg_frp_7d :=
      if 0 < past_fires_short.length then Pandas.seriesMean (past_fires_short.map (·.frp))
      else 0
    fires_persistent_days :=
      if 0 < past_fires_short.length then
        ((past_fires_short.map (fun e => ⌊e.acq_date / 24⌋)).dedup).length
      else 0
    days_since_last_fire :=
      if 0 < past_fires_short.length then
        min ⌊(target_date - Pandas.seriesMax (past_fires_short.map (·.acq_date))) / 24⌋ 999
      else 999 }

/-- The per-lookback USGS selection of extract_usgs_historical_features. -/
def past_quakes (ops : GeoUtils.TrigOps) (site : Site) (target_date : ℚ)
    (usgs_df : UsgsDF) (lookback_days : ℕ) (min_magnitude : ℚ) : List QuakeEvent :=
  let past_start := target_date - (lookback_days : ℚ) * 24
  let past_end := target_date
  let df := ensure_datetime_usgs usgs_df
  let base := df.events.filter (fun e =>
    decide (past_start ≤ e.time) && decide (e.time < past_end) &&
    decide (min_magnitude ≤ e.mag))
  if 0 < base.length then
    base.filter (fun row =>
      decide (GeoUtils.haversine_distance ops site.lat site.lon row.latitude row.longitude
        < RADIUS_KM))
  else base

/-- Feature dict of extract_usgs_historical_features. -/
structure UsgsFeatures where
  quakes_7d_count : ℕ
  quakes_30d_count : ℕ
  quake_max_mag_30d : ℚ
  quake_avg_mag_30d : ℚ
  quakes_5plus_count : ℕ
  seismic_trend : ℚ
  days_since_last_quake : ℤ
deriving DecidableEq

/-- sensor_features.extract_usgs_historical_features. -/
def extract_usgs_historical_features (ops : GeoUtils.TrigOps) (site : Site)
    (target_date : ℚ) (usgs_df : UsgsDF) (lookback_days_short lookback_days_long : ℕ)
    (min_magnitude : ℚ) : UsgsFeatures :=
  let past_quakes_short := past_quakes ops site target_date usgs_df lookback_days_short min_magnitude
  let past_quakes_long := past_quakes ops site target_date usgs_df lookback_days_long min_magnitude
  { quakes_7d_count := past_quakes_short.length
    quakes_30d_count := past_quakes_long.length
    quake_max_mag_30d :=
      if 0 < past_quakes_long.length then Pandas.seriesMax (past_quakes_long.map (·.mag))
      else 0
    quake_avg_mag_30d :=
      if 0 < past_quakes_long.length then Pandas.seriesMean (past_quakes_long.map (·.mag))
      else 0
    quakes_5plus_count :=
      if 0 < past_quakes_long.length then
        (past_quakes_long.filter (fun e => decide ((5 : ℚ) ≤ e.mag))).length
      else 0
    seismic_trend :=
      if 0 < past_quakes_long.length then
        if 0 < past_quakes_long.length then
          ((past_quakes_short.length : ℚ) / (past_quakes_long.length : ℚ)) * (43 / 10)
        else 0
      else 0
    days_since_last_quake :=
      if 0 < past_quakes_long.length then
        min ⌊(target_date - Pandas.seriesMax (past_quakes_long.map (·.time))) / 24⌋ 999
      else 999 }

/-- Weather feature dict (7 values). -/
structure WeatherFeatures where
  temp_mean : ℚ
  temp_max : ℚ
  humidity_mean : ℚ
  humidity_min : ℚ
  wind_max : ℚ
  rain_total : ℚ
  dry_days : ℚ
deriving DecidableEq

/-- The fixed neutral fallback dict of extract_weather_features. -/
def weather_fallback_defaults : WeatherFeatures :=
  { temp_mean := 15, temp_max := 20, humidity_mean := 60, humidity_min := 40,
    wind_max := 15, rain_total := 0, dry_days := 2 }

/-- sensor_features.extract_weather_features.  The Open-Meteo collaborator
calls (get_forecast_weather_features when use_forecast, otherwise
get_historical_weather_features) are external I/O, modelled as already-decided
Except outcomes handed in; the try/except of the source maps any raised
exception to the fixed neutral defaults. -/
def extract_weather_features (use_forecast : Bool)
    (forecast_result historical_result : Except String WeatherFeatures) : WeatherFeatures :=
  match (if use_forecast then forecast_result else historical_result) with
  | Except.ok features => features
  | Except.error _ => weather_fallback_defaults

/-- State-passing wrapper for extract_firms_historical_features: the second
component is the caller-visible store (conversion happens on a copy). -/
def extract_firms_historical_features_call (ops : GeoUtils.TrigOps) (site : Site)
    (target_date : ℚ) (firms_df : FirmsDF) (lookback_days_short lookback_days_long : ℕ) :
    FirmsFeatures × FirmsDF :=
  (extract_firms_historical_features ops site target_date firms_df
      lookback_days_short lookback_days_long,
    firms_df)

/-- State-passing wrapper for extract_usgs_historical_features. -/
def extract_usgs_historical_features_call (ops : GeoUtils.TrigOps) (site : Site)
    (target_date : ℚ) (usgs_df : UsgsDF) (lookback_days_short lookback_days_long : ℕ)
    (min_magnitude : ℚ) : UsgsFeatures × UsgsDF :=
  (extract_usgs_historical_features ops site target_date usgs_df
      lookback_days_short lookback_days_long min_magnitude,
    usgs_df)

end SensorFeatures

namespace RouteRisk

/-- route_risk.RoutePoint. -/
structure RoutePoint where
  order : ℤ
  name : String
  lat : ℚ
  lon : ℚ
  fire_risk : ℚ
  quake_risk : ℚ
  flood_risk : ℚ
  combined_risk : ℚ
  distance_from_prev : ℚ
  accumulated_risk : ℚ
deriving DecidableEq

/-- route_risk.Route (the fields touched by calculate_accumulated_risk). -/
structure Route where
  route_id : String
  points : List RoutePoint
  total_distance : ℚ
  aggregated_fire_risk : ℚ
  aggregated_quake_risk : ℚ
  aggregated_combined_risk : ℚ
  dominant_risk_category : String
deriving DecidableEq

/-- The probability composition 1 - prod(1 - p_i) that
calculate_accumulated_risk applies to each of its three probability lists
(the expression (1 - np.prod([1 - p for p in probs])) of route_risk.py). -/
def combine (probs : List ℚ) : ℚ :=
  1 - (probs.map (fun p => 1 - p)).prod

/-- The per-point accumulation loop of calculate_accumulated_risk: cumulative
starts at 0.0 and each waypoint stores cumulative * 100 after the fold step
cumulative = 1 - (1 - cumulative) * (1 - prob). -/
def accumulate_points (cumulative : ℚ) : List RoutePoint → List RoutePoint
  | [] => []
  | p :: ps =>
    let prob := p.combined_risk / 100
    let cumulative' := 1 - (1 - cumulative) * (1 - prob)
    { p with accumulated_risk := cumulative' * 100 } :: accumulate_points cumulative' ps

/-- route_risk.calculate_accumulated_risk. -/
def calculate_accumulated_risk (route : Route) : Route :=
  let fire_probs := route.points.map (fun p => p.fire_risk / 100)
  let aggregated_fire_risk := combine fire_probs * 100
  let quake_probs := route.points.map (fun p => p.quake_risk / 100)
  let aggregated_quake_risk := combine quake_probs * 100
  let combined_probs := route.points.map (fun p => p.combined_risk / 100)
  let aggregated_combined_risk := combine combined_probs * 100
  let dominant_risk_category :=
    if aggregated_quake_risk < aggregated_fire_risk then "Feuer" else "Erdbeben"
  { route with
    aggregated_fire_risk := aggregated_fire_risk
    aggregated_quake_risk := aggregated_quake_risk
    aggregated_combined_risk := aggregated_combined_risk
    dominant_risk_category := dominant_risk_category
    points := accumulate_points 0 route.points }

end RouteRisk

namespace RunSensorForecast

/-- First physics-adjustment block of predict_dual_risk: the cold/moist
reduction chain (one if/elif chain in the source). -/
def adjust_fire_reduce (temp_mean humidity_mean humidity_min fire_proba : ℚ) : ℚ :=
  if temp_mean ≤ 0 ∧ 70 < humidity_mean then fire_proba * (1 / 100)
  else if temp_mean ≤ 0 then fire_proba * (5 / 100)
  else if temp_mean < 5 then fire_proba * (2 / 10)
  else if temp_mean < 10 then fire_proba * (5 / 10)
  else if 10 ≤ temp_mean ∧ temp_mean < 25 ∧ 40 < humidity_min then fire_proba * (85 / 100)
  else fire_proba

/-- Second physics-adjustment block of predict_dual_risk: the hot/dry
increase chain, each branch capped at 1.0 by min. -/
def adjust_fire_increase (temp_mean humidity_min fire_proba : ℚ) : ℚ :=
  if 35 < temp_mean ∧ humidity_min < 20 then min (fire_proba * (15 / 10)) 1
  else if 30 < temp_mean ∧ humidity_min < 30 then min (fire_proba * (13 / 10)) 1
  else fire_proba

/-- The full physics-based adjustment of the model fire probability in
predict_dual_risk: the reduction chain followed by the increase chain. -/
def adjust_fire_proba (temp_mean humidity_mean humidity_min fire_proba : ℚ) : ℚ :=
  adjust_fire_increase temp_mean humidity_min
    (adjust_fire_reduce temp_mean humidity_mean humidity_min fire_proba)

/-- combined_proba = 1 - (1 - fire_proba) * (1 - quake_proba) of
predict_dual_risk. -/
def combined_proba (fire_proba quake_proba : ℚ) : ℚ :=
  1 - (1 - fire_proba) * (1 - quake_proba)

/-- The (fire, quake, combined) probabilities predict_dual_risk returns, given
the model probabilities and the weather features the adjustments read. -/
def predict_dual_risk_probas (fire_proba_model quake_proba : ℚ)
    (temp_mean humidity_mean humidity_min : ℚ) : ℚ × ℚ × ℚ :=
  let fire_proba := adjust_fire_proba temp_mean humidity_mean humidity_min fire_proba_model
  (fire_proba, quake_proba, combined_proba fire_proba quake_proba)

end RunSensorForecast

namespace Fixtures

/-- Trig operations under which the haversine evaluates to the constant
distance d for every pair of points: atan2 is constantly d / (2 * 6371).
Used to realise the spec scenarios "an event at distance d km". -/
def opsConst (d : ℚ) : GeoUtils.TrigOps :=
  { sin := fun _ => 0
    cos := fun _ => 0
    sqrt := fun _ => 0
    atan2 := fun _ _ => d / (2 * 6371)
    pi := 0 }

/-- The scenario site at (34.05, -118.24). -/
def laSite : SensorLabels.Site :=
  { name := "LA", lat := 34.05, lon := -118.24 }

/-- The scenario fire event: confidence 80, FRP 50 MW, timestamp T + 10h for
target date T = 0. -/
def scnFire : SensorLabels.FireEvent :=
  { latitude := 34.1, longitude := -118.3, acq_date := 10, confidence := 80,
    brightness := 300, frp := 50, daynight := 'D' }

/-- Scenario store holding exactly the scenario fire event. -/
def scnFirmsDF : SensorLabels.FirmsDF :=
  { events := [scnFire], acq_date_is_datetime := true, has_daynight := false }

/-- A qualifying fire event timed exactly at the target date T = 0. -/
def fireAtT : SensorLabels.FireEvent :=
  { latitude := 34.1, longitude := -118.3, acq_date := 0, confidence := 80,
    brightness := 300, frp := 50, daynight := 'D' }

/-- A qualifying fire event timed exactly at the horizon end T + 72h. -/
def fireAtEnd : SensorLabels.FireEvent :=
  { latitude := 34.1, longitude := -118.3, acq_date := 72, confidence := 80,
    brightness := 300, frp := 50, daynight := 'D' }

/-- A qualifying fire event timed before the target date. -/
def fireBefore : SensorLabels.FireEvent :=
  { latitude := 34.1, longitude := -118.3, acq_date := -5, confidence := 80,
    brightness := 300, frp := 50, daynight := 'D' }

/-- Store seeded with events before, at, and after the target date T = 0. -/
def boundaryFirmsDF : SensorLabels.FirmsDF :=
  { events := [fireBefore, fireAtT, fireAtEnd], acq_date_is_datetime := true,
    has_daynight := false }

/-- A sample route whose three waypoints carry combined risks 25, 40, 55. -/
def sampleRoute : RouteRisk.Route :=
  { route_id := "Test"
    points :=
      [{ order := 1, name := "Start", lat := 52.52, lon := 13.405, fire_risk := 20,
         quake_risk := 10, flood_risk := 0, combined_risk := 25, distance_from_prev := 0,
         accumulated_risk := 0 },
       { order := 2, name := "Middle", lat := 48.8566, lon := 2.3522, fire_risk := 35,
         quake_risk := 30, flood_risk := 0, combined_risk := 40, distance_from_prev := 0,
         accumulated_risk := 0 },
       { order := 3, name := "End", lat := 41.9028, lon := 12.4964, fire_risk := 50,
         quake_risk := 50, flood_risk := 0, combined_risk := 55, distance_from_prev := 0,
         accumulated_risk := 0 }]
    total_distance := 0
    aggregated_fire_risk := 0
    aggregated_quake_risk := 0
    aggregated_combined_risk := 0
    dominant_risk_category := "" }

end Fixtures

namespace GeoUtils

theorem haversine_vectorized_eq_zipWith (ops : TrigOps) (lat1 lon1 : ℚ) :
    ∀ (las los : List ℚ),
      haversine_distance_vectorized ops lat1 lon1 las los =
        List.zipWith (fun la lo => haversine_distance ops lat1 lon1 la lo) las los := by
  intro las
  induction las with
  | nil =>
    intro los
    simp [haversine_distance_vectorized]
  | cons la las ih =>
    intro los
    cases los with
    | nil =>
      simp [haversine_distance_vectorized]
    | cons lo los =>
      have h := ih los
      simp only [haversine_distance_vectorized, List.map_cons, List.zip_cons_cons,
        List.zipWith_cons_cons] at h ⊢
      rw [h]
      rfl

/-- Under the constant-distance trig fixture the haversine is the constant. -/
theorem haversine_opsConst (d lat1 lon1 lat2 lon2 : ℚ) :
    haversine_distance (Fixtures.opsConst d) lat1 lon1 lat2 lon2 = d := by
  simp only [haversine_distance, Fixtures.opsConst]
  norm_num
  ring

end GeoUtils

namespace SensorLabels

theorem filter_within_radius_eq {α : Type} (ops : GeoUtils.TrigOps) (lat lon radius_km : ℚ)
    (latOf lonOf : α → ℚ) (rows : List α) :
    filter_within_radius ops lat lon radius_km latOf lonOf rows =
      rows.filter
        (fun e => decide (GeoUtils.haversine_distance ops lat lon (latOf e) (lonOf e) < radius_km)) := by
  unfold filter_within_radius
  rw [GeoUtils.haversine_vectorized_eq_zipWith]
  induction rows with
  | nil => rfl
  | cons a l ih =>
    simp only [List.map_cons, List.zipWith_cons_cons, List.zip_cons_cons, List.filter_cons]
    simp at ih
    by_cases h : GeoUtils.haversine_distance ops lat lon (latOf a) (lonOf a) < radius_km
    · simp [h, ih]
    · simp [h, ih]

theorem ensure_datetime_firms_events (df : FirmsDF) :
    (ensure_datetime_firms df).events = df.events := by
  unfold ensure_datetime_firms
  by_cases h : df.acq_date_is_datetime
  · simp [h]
  · simp only [h, Bool.false_eq_true, if_false]
    have : ∀ e : FireEvent, ({ e with acq_date := Pandas.to_datetime e.acq_date }) = e := by
      intro e; cases e; rfl
    simp [this]

theorem ensure_datetime_firms_has_daynight (df : FirmsDF) :
    (ensure_datetime_firms df).has_daynight = df.has_daynight := by
  unfold ensure_datetime_firms
  by_cases h : df.acq_date_is_datetime <;> simp [h]

theorem ensure_datetime_usgs_events (df : UsgsDF) :
    (ensure_datetime_usgs df).events = df.events := by
  unfold ensure_datetime_usgs
  by_cases h : df.time_is_datetime
  · simp [h]
  · simp only [h, Bool.false_eq_true, if_false]
    have : ∀ e : QuakeEvent, ({ e with time := Pandas.to_datetime e.time }) = e := by
      intro e; cases e; rfl
    simp [this]

/-- The guarded spatial filter equals an unguarded row filter by scalar
distance: on the empty list both branches are empty. -/
theorem guarded_radius_filter {α : Type} (ops : GeoUtils.TrigOps) (lat lon radius_km : ℚ)
    (latOf lonOf : α → ℚ) (rows : List α) :
    (if 0 < rows.length then
        filter_within_radius ops lat lon radius_km latOf lonOf rows
      else rows) =
      rows.filter
        (fun e => decide (GeoUtils.haversine_distance ops lat lon (latOf e) (lonOf e) < radius_km)) := by
  cases rows with
  | nil => simp
  | cons a l =>
    rw [if_pos (by simp)]
    exact filter_within_radius_eq ops lat lon radius_km latOf lonOf (a :: l)

/-- Full membership characterisation of the rows counted by build_fire_label. -/
theorem mem_future_fires (ops : GeoUtils.TrigOps) (site : Site) (target_date : ℚ)
    (firms_df : FirmsDF) (confidence_threshold min_frp radius_km : ℚ) (e : FireEvent) :
    e ∈ future_fires ops site target_date firms_df confidence_threshold min_frp radius_km ↔
      e ∈ firms_df.events ∧
      target_date ≤ e.acq_date ∧ e.acq_date < target_date + PREDICTION_HORIZON_HOURS ∧
      confidence_threshold ≤ e.confidence ∧ min_frp ≤ e.frp ∧
      (firms_df.has_daynight = true → e.daynight = 'D') ∧
      GeoUtils.haversine_distance ops site.lat site.lon e.latitude e.longitude < radius_km := by
  unfold future_fires
  rw [guarded_radius_filter, ensure_datetime_firms_has_daynight, ensure_datetime_firms_events]
  cases hdn : firms_df.has_daynight <;>
    simp [List.mem_filter, and_assoc] <;> tauto

/-- Full membership characterisation of the rows counted by build_quake_label. -/
theorem mem_future_quakes (ops : GeoUtils.TrigOps) (site : Site) (target_date : ℚ)
    (usgs_df : UsgsDF) (min_magnitude radius_km : ℚ) (e : QuakeEvent) :
    e ∈ future_quakes ops site target_date usgs_df min_magnitude radius_km ↔
      e ∈ usgs_df.events ∧
      target_date ≤ e.time ∧ e.time < target_date + PREDICTION_HORIZON_HOURS ∧
      min_magnitude ≤ e.mag ∧
      GeoUtils.haversine_distance ops site.lat site.lon e.latitude e.longitude < radius_km := by
  unfold future_quakes
  rw [guarded_radius_filter, ensure_datetime_usgs_events]
  simp [List.mem_filter, and_assoc]
  tauto

/-- Closed form of the counted fire rows as one filter over the store. -/
theorem future_fires_eq_filter (ops : GeoUtils.TrigOps) (site : Site) (target_date : ℚ)
    (firms_df : FirmsDF) (confidence_threshold min_frp radius_km : ℚ) :
    future_fires ops site target_date firms_df confidence_threshold min_frp radius_km =
      firms_df.events.filter (fun e =>
        decide (GeoUtils.haversine_distance ops site.lat site.lon e.latitude e.longitude
          < radius_km) &&
        (decide (target_date ≤ e.acq_date) &&
          decide (e.acq_date < target_date + PREDICTION_HORIZON_HOURS) &&
          decide (confidence_threshold ≤ e.confidence) && decide (min_frp ≤ e.frp) &&
          (!firms_df.has_daynight || decide (e.daynight = 'D')))) := by
  unfold future_fires
  rw [guarded_radius_filter, ensure_datetime_firms_has_daynight, ensure_datetime_firms_events,
    List.filter_filter]

/-- Closed form of the counted quake rows as one filter over the store. -/
theorem future_quakes_eq_filter (ops : GeoUtils.TrigOps) (site : Site) (target_date : ℚ)
    (usgs_df : UsgsDF) (min_magnitude radius_km : ℚ) :
    future_quakes ops site target_date usgs_df min_magnitude radius_km =
      usgs_df.events.filter (fun e =>
        decide (GeoUtils.haversine_distance ops site.lat site.lon e.latitude e.longitude
          < radius_km) &&
        (decide (target_date ≤ e.time) &&
          decide (e.time < target_date + PREDICTION_HORIZON_HOURS) &&
          decide (min_magnitude ≤ e.mag))) := by
  unfold future_quakes
  rw [guarded_radius_filter, ensure_datetime_usgs_events, List.filter_filter]

end SensorLabels

theorem filter_filter_of_imp {α : Type} {p q : α → Bool}
    (h : ∀ a, p a = true → q a = true) :
    ∀ l : List α, (l.filter q).filter p = l.filter p := by
  intro l
  induction l with
  | nil => rfl
  | cons a l ih =>
    by_cases hq : q a = true
    · by_cases hp : p a = true <;> simp [List.filter_cons, hq, hp, ih]
    · have hp : p a = false := by
        cases hpa : p a
        · rfl
        · exact absurd (h a hpa) hq
      simp [List.filter_cons, hq, hp, ih]

/-- C3: the risk-combination operation computes 1 − ∏(1 − p_i) over its input
probabilities; the empty list combines to 0, [1] combines to 1, [1/2, 1/2]
combines to 3/4; the two-hazard combination of predict_dual_risk is the
two-element instance; and calculate_accumulated_risk aggregates a route's
combined risk by exactly this operation on the per-waypoint probabilities. -/
theorem claim_c3_risk_combiner :
    RouteRisk.combine [] = 0 ∧
    RouteRisk.combine [1] = 1 ∧
    RouteRisk.combine [1 / 2, 1 / 2] = 3 / 4 ∧
    (∀ p q : ℚ, RunSensorForecast.combined_proba p q = RouteRisk.combine [p, q]) ∧
    (∀ probs : List ℚ, RouteRisk.combine probs = 1 - (probs.map (fun p => 1 - p)).prod) ∧
    (∀ route : RouteRisk.Route,
      (RouteRisk.calculate_accumulated_risk route).aggregated_combined_risk =
        RouteRisk.combine (route.points.map (fun p => p.combined_risk / 100)) * 100) := by
  refine ⟨by norm_num [RouteRisk.combine], by norm_num [RouteRisk.combine],
    by norm_num [RouteRisk.combine], ?_, fun _ => rfl, fun _ => rfl⟩
  intro p q
  simp only [RunSensorForecast.combined_proba, RouteRisk.combine, List.map_cons,
    List.map_nil, List.prod_cons, List.prod_nil]
  ring

/-- C5: the batch haversine function returns, element-wise, exactly the same
distances as the scalar haversine on each target point: it equals the zipWith
of the scalar function over the target latitude and longitude arrays. -/
theorem claim_c5_vectorized_scalar_agreement :
    ∀ (ops : GeoUtils.TrigOps) (lat1 lon1 : ℚ) (lat2_array lon2_array : List ℚ),
      GeoUtils.haversine_distance_vectorized ops lat1 lon1 lat2_array lon2_array =
        List.zipWith (fun la lo => GeoUtils.haversine_distance ops lat1 lon1 la lo)
          lat2_array lon2_array :=
  fun ops lat1 lon1 => GeoUtils.haversine_vectorized_eq_zipWith ops lat1 lon1

/-- C7: whenever the selected weather collaborator call fails (raises), in
either forecast or historical mode, extract_weather_features returns the fixed
neutral default feature set instead of propagating the failure. -/
theorem claim_c7_weather_failure_fallback :
    (∀ (err : String) (historical_result : Except String SensorFeatures.WeatherFeatures),
      SensorFeatures.extract_weather_features true (Except.error err) historical_result =
        SensorFeatures.weather_fallback_defaults) ∧
    (∀ (err : String) (forecast_result : Except String SensorFeatures.WeatherFeatures),
      SensorFeatures.extract_weather_features false forecast_result (Except.error err) =
        SensorFeatures.weather_fallback_defaults) ∧
    SensorFeatures.weather_fallback_defaults =
      { temp_mean := 15, temp_max := 20, humidity_mean := 60, humidity_min := 40,
        wind_max := 15, rain_total := 0, dry_days := 2 } :=
  ⟨fun _ _ => rfl, fun _ _ => rfl, rfl⟩

theorem past_fires_restrict (ops : GeoUtils.TrigOps) (site : SensorLabels.Site) (T : ℚ)
    (firms_df : SensorLabels.FirmsDF) (lb : ℕ) :
    SensorFeatures.past_fires ops site T
      { firms_df with events := firms_df.events.filter (fun e => decide (e.acq_date < T)) } lb =
      SensorFeatures.past_fires ops site T firms_df lb := by
  have h : ∀ e : SensorLabels.FireEvent,
      (decide (T - (lb : ℚ) * 24 ≤ e.acq_date) && decide (e.acq_date < T) &&
        decide (SensorFeatures.FIRMS_CONFIDENCE_THR ≤ e.confidence) &&
        decide (SensorFeatures.FIRMS_MIN_FRP ≤ e.frp) &&
        (!firms_df.has_daynight || decide (e.daynight = 'D'))) = true →
      decide (e.acq_date < T) = true := by
    intro e he
    simp only [Bool.and_eq_true] at he
    exact he.1.1.1.2
  unfold SensorFeatures.past_fires
  simp only [SensorLabels.ensure_datetime_firms_events,
    SensorLabels.ensure_datetime_firms_has_daynight]
  rw [filter_filter_of_imp h]

theorem past_quakes_restrict (ops : GeoUtils.TrigOps) (site : SensorLabels.Site) (T : ℚ)
    (usgs_df : SensorLabels.UsgsDF) (lb : ℕ) (min_magnitude : ℚ) :
    SensorFeatures.past_quakes ops site T
      { usgs_df with events := usgs_df.events.filter (fun e => decide (e.time < T)) } lb
        min_magnitude =
      SensorFeatures.past_quakes ops site T usgs_df lb min_magnitude := by
  have h : ∀ e : SensorLabels.QuakeEvent,
      (decide (T - (lb : ℚ) * 24 ≤ e.time) && decide (e.time < T) &&
        decide (min_magnitude ≤ e.mag)) = true →
      decide (e.time < T) = true := by
    intro e he
    simp only [Bool.and_eq_true] at he
    exact he.1.2
  unfold SensorFeatures.past_quakes
  simp only [SensorLabels.ensure_datetime_usgs_events]
  rw [filter_filter_of_imp h]

/-- C1: leakage-freedom of the historical feature extractors — replacing the
event store by its subset of events strictly earlier than the target date
changes no returned feature value, so no event with timestamp ≥ target_date
ever contributes to any count, severity, persistence or days-since feature. -/
theorem claim_c1_features_leakage_free :
    ∀ (ops : GeoUtils.TrigOps) (site : SensorLabels.Site) (T : ℚ)
      (firms_df : SensorLabels.FirmsDF) (usgs_df : SensorLabels.UsgsDF)
      (lookback_days_short lookback_days_long : ℕ) (min_magnitude : ℚ),
      SensorFeatures.extract_firms_historical_features ops site T
          { firms_df with events := firms_df.events.filter (fun e => decide (e.acq_date < T)) }
          lookback_days_short lookback_days_long =
        SensorFeatures.extract_firms_historical_features ops site T firms_df
          lookback_days_short lookback_days_long ∧
      SensorFeatures.extract_usgs_historical_features ops site T
          { usgs_df with events := usgs_df.events.filter (fun e => decide (e.time < T)) }
          lookback_days_short lookback_days_long min_magnitude =
        SensorFeatures.extract_usgs_historical_features ops site T usgs_df
          lookback_days_short lookback_days_long min_magnitude := by
  intro ops site T firms_df usgs_df ls ll mm
  constructor
  · unfold SensorFeatures.extract_firms_historical_features
    rw [past_fires_restrict, past_fires_restrict]
  · unfold SensorFeatures.extract_usgs_historical_features
    rw [past_quakes_restrict, past_quakes_restrict]

/-- C2: the label builders count exactly the events in the half-open horizon
window [T, T + 72h): the horizon constant is 72 hours; every counted event
satisfies T ≤ timestamp < T + 72; an otherwise-qualifying event at timestamp
exactly T is counted; one at exactly T + 72 is never counted; one before T is
never counted; and the metadata count of both label builders is the length of
the counted-event list. -/
theorem claim_c2_horizon_half_open :
    SensorLabels.PREDICTION_HORIZON_HOURS = 72 ∧
    (∀ (ops : GeoUtils.TrigOps) (site : SensorLabels.Site) (T : ℚ)
      (df : SensorLabels.FirmsDF) (c f r : ℚ) (e : SensorLabels.FireEvent),
      (e ∈ SensorLabels.future_fires ops site T df c f r →
        T ≤ e.acq_date ∧ e.acq_date < T + 72) ∧
      (e ∈ df.events → T ≤ e.acq_date → e.acq_date < T + 72 →
        c ≤ e.confidence → f ≤ e.frp →
        (df.has_daynight = true → e.daynight = 'D') →
        GeoUtils.haversine_distance ops site.lat site.lon e.latitude e.longitude < r →
        e ∈ SensorLabels.future_fires ops site T df c f r) ∧
      (e.acq_date = T + 72 → e ∉ SensorLabels.future_fires ops site T df c f r) ∧
      (e.acq_date < T → e ∉ SensorLabels.future_fires ops site T df c f r)) ∧
    (∀ (ops : GeoUtils.TrigOps) (site : SensorLabels.Site) (T : ℚ)
      (df : SensorLabels.UsgsDF) (m r : ℚ) (e : SensorLabels.QuakeEvent),
      (e ∈ SensorLabels.future_quakes ops site T df m r →
        T ≤ e.time ∧ e.time < T + 72) ∧
      (e ∈ df.events → T ≤ e.time → e.time < T + 72 → m ≤ e.mag →
        GeoUtils.haversine_distance ops site.lat site.lon e.latitude e.longitude < r →
        e ∈ SensorLabels.future_quakes ops site T df m r) ∧
      (e.time = T + 72 → e ∉ SensorLabels.future_quakes ops site T df m r) ∧
      (e.time < T → e ∉ SensorLabels.future_quakes ops site T df m r)) ∧
    (∀ (ops : GeoUtils.TrigOps) (site : SensorLabels.Site) (T : ℚ)
      (fdf : SensorLabels.FirmsDF) (udf : SensorLabels.UsgsDF) (c f m r : ℚ) (k : ℕ),
      (SensorLabels.build_fire_label ops site T fdf c f k r).2.num_detections =
        (SensorLabels.future_fires ops site T fdf c f r).length ∧
      (SensorLabels.build_quake_label ops site T udf m k r).2.num_events =
        (SensorLabels.future_quakes ops site T udf m r).length) := by
  have h72 : SensorLabels.PREDICTION_HORIZON_HOURS = (72 : ℚ) := rfl
  refine ⟨rfl, ?_, ?_, fun _ _ _ _ _ _ _ _ _ _ => ⟨rfl, rfl⟩⟩
  · intro ops site T df c f r e
    have hm := SensorLabels.mem_future_fires ops site T df c f r e
    rw [h72] at hm
    refine ⟨?_, ?_, ?_, ?_⟩
    · intro he
      rcases hm.1 he with ⟨_, h1, h2, _⟩
      exact ⟨h1, h2⟩
    · intro h1 h2 h3 h4 h5 h6 h7
      exact hm.2 ⟨h1, h2, h3, h4, h5, h6, h7⟩
    · intro heq he
      rcases hm.1 he with ⟨_, _, h2, _⟩
      rw [heq] at h2
      exact lt_irrefl _ h2
    · intro hlt he
      rcases hm.1 he with ⟨_, h1, _⟩
      exact absurd h1 (not_le.mpr hlt)
  · intro ops site T df m r e
    have hm := SensorLabels.mem_future_quakes ops site T df m r e
    rw [h72] at hm
    refine ⟨?_, ?_, ?_, ?_⟩
    · intro he
      rcases hm.1 he with ⟨_, h1, h2, _⟩
      exact ⟨h1, h2⟩
    · intro h1 h2 h3 h4 h5
      exact hm.2 ⟨h1, h2, h3, h4, h5⟩
    · intro heq he
      rcases hm.1 he with ⟨_, _, h2, _⟩
      rw [heq] at h2
      exact lt_irrefl _ h2
    · intro hlt he
      rcases hm.1 he with ⟨_, h1, _⟩
      exact absurd h1 (not_le.mpr hlt)

theorem claim_c2_horizon_half_open_witness :
    Fixtures.fireAtT ∈ SensorLabels.future_fires (Fixtures.opsConst 40) Fixtures.laSite 0
        Fixtures.boundaryFirmsDF 70 30 100 ∧
    Fixtures.fireAtEnd ∉ SensorLabels.future_fires (Fixtures.opsConst 40) Fixtures.laSite 0
        Fixtures.boundaryFirmsDF 70 30 100 ∧
    Fixtures.fireBefore ∉ SensorLabels.future_fires (Fixtures.opsConst 40) Fixtures.laSite 0
        Fixtures.boundaryFirmsDF 70 30 100 := by
  have h := claim_c2_horizon_half_open
  refine ⟨?_, ?_, ?_⟩
  · exact (h.2.1 (Fixtures.opsConst 40) Fixtures.laSite 0 Fixtures.boundaryFirmsDF 70 30 100
        Fixtures.fireAtT).2.1
      (by simp [Fixtures.boundaryFirmsDF])
      (by norm_num [Fixtures.fireAtT])
      (by norm_num [Fixtures.fireAtT])
      (by norm_num [Fixtures.fireAtT])
      (by norm_num [Fixtures.fireAtT])
      (by simp [Fixtures.boundaryFirmsDF])
      (by rw [GeoUtils.haversine_opsConst]; norm_num)
  · exact (h.2.1 (Fixtures.opsConst 40) Fixtures.laSite 0 Fixtures.boundaryFirmsDF 70 30 100
        Fixtures.fireAtEnd).2.2.1
      (by norm_num [Fixtures.fireAtEnd])
  · exact (h.2.1 (Fixtures.opsConst 40) Fixtures.laSite 0 Fixtures.boundaryFirmsDF 70 30 100
        Fixtures.fireBefore).2.2.2
      (by norm_num [Fixtures.fireBefore])

/-- C4: the spatial filter of label generation is a strict inequality on the
great-circle distance — an event at distance ≥ radius_km is never counted for
either hazard; the per-hazard defaults are 100 km (fire) and 150 km (quake),
quake larger than fire; the scenario fire event at 40 km (confidence 80, FRP
50 MW, timestamp T + 10h) yields label 1 with count 1 under the default fire
radius, while the same event at 60 km under radius_km = 50 yields label 0. -/
theorem claim_c4_strict_spatial_filter :
    (∀ (ops : GeoUtils.TrigOps) (site : SensorLabels.Site) (T : ℚ)
        (df : SensorLabels.FirmsDF) (c f r : ℚ) (e : SensorLabels.FireEvent),
      r ≤ GeoUtils.haversine_distance ops site.lat site.lon e.latitude e.longitude →
      e ∉ SensorLabels.future_fires ops site T df c f r) ∧
    (∀ (ops : GeoUtils.TrigOps) (site : SensorLabels.Site) (T : ℚ)
        (df : SensorLabels.UsgsDF) (m r : ℚ) (e : SensorLabels.QuakeEvent),
      r ≤ GeoUtils.haversine_distance ops site.lat site.lon e.latitude e.longitude →
      e ∉ SensorLabels.future_quakes ops site T df m r) ∧
    SensorLabels.RADIUS_KM = 100 ∧ SensorLabels.USGS_RADIUS_KM = 150 ∧
    SensorLabels.RADIUS_KM < SensorLabels.USGS_RADIUS_KM ∧
    SensorLabels.build_fire_label (Fixtures.opsConst 40) Fixtures.laSite 0 Fixtures.scnFirmsDF
        SensorLabels.FIRMS_CONFIDENCE_THRESHOLD SensorLabels.FIRMS_MIN_FRP
        SensorLabels.FIRMS_MIN_DETECTIONS SensorLabels.RADIUS_KM =
      (1, { num_detections := 1, max_brightness := 300, avg_brightness := 300, max_frp := 50,
            future_window := (0, 72) }) ∧
    (SensorLabels.build_fire_label (Fixtures.opsConst 60) Fixtures.laSite 0 Fixtures.scnFirmsDF
        SensorLabels.FIRMS_CONFIDENCE_THRESHOLD SensorLabels.FIRMS_MIN_FRP
        SensorLabels.FIRMS_MIN_DETECTIONS 50).1 = 0 := by
  refine ⟨?_, ?_, rfl, rfl,
    by norm_num [SensorLabels.RADIUS_KM, SensorLabels.USGS_RADIUS_KM], ?_, ?_⟩
  · intro ops site T df c f r e hr he
    have h := ((SensorLabels.mem_future_fires ops site T df c f r e).1 he).2.2.2.2.2.2
    exact absurd h (not_lt.mpr hr)
  · intro ops site T df m r e hr he
    have h := ((SensorLabels.mem_future_quakes ops site T df m r e).1 he).2.2.2.2
    exact absurd h (not_lt.mpr hr)
  · have hff : SensorLabels.future_fires (Fixtures.opsConst 40) Fixtures.laSite 0
        Fixtures.scnFirmsDF SensorLabels.FIRMS_CONFIDENCE_THRESHOLD SensorLabels.FIRMS_MIN_FRP
        SensorLabels.RADIUS_KM = [Fixtures.scnFire] := by
      rw [SensorLabels.future_fires_eq_filter]
      norm_num [Fixtures.scnFirmsDF, Fixtures.scnFire, GeoUtils.haversine_opsConst,
        SensorLabels.PREDICTION_HORIZON_HOURS, SensorLabels.FIRMS_CONFIDENCE_THRESHOLD,
        SensorLabels.FIRMS_MIN_FRP, SensorLabels.RADIUS_KM]
    simp only [SensorLabels.build_fire_label, hff]
    norm_num [Pandas.seriesMax, Pandas.seriesMean, SensorLabels.FIRMS_MIN_DETECTIONS,
      SensorLabels.PREDICTION_HORIZON_HOURS, Fixtures.scnFire]
  · have hff : SensorLabels.future_fires (Fixtures.opsConst 60) Fixtures.laSite 0
        Fixtures.scnFirmsDF SensorLabels.FIRMS_CONFIDENCE_THRESHOLD SensorLabels.FIRMS_MIN_FRP
        50 = [] := by
      rw [SensorLabels.future_fires_eq_filter]
      norm_num [Fixtures.scnFirmsDF, GeoUtils.haversine_opsConst]
    simp only [SensorLabels.build_fire_label, hff]
    norm_num [SensorLabels.FIRMS_MIN_DETECTIONS]

theorem claim_c4_strict_spatial_filter_witness :
    Fixtures.scnFire ∉ SensorLabels.future_fires (Fixtures.opsConst 100) Fixtures.laSite 0
        Fixtures.scnFirmsDF 70 30 100 :=
  claim_c4_strict_spatial_filter.1 (Fixtures.opsConst 100) Fixtures.laSite 0 Fixtures.scnFirmsDF
    70 30 100 Fixtures.scnFire (by rw [GeoUtils.haversine_opsConst])

/-- C6: label generation is total and its metadata record carries the event
count, the severity aggregates and the window boundaries whatever the label:
on an empty event store, and more generally whenever no qualifying event
survives the filters, both builders return label 0 with a fully-populated,
zero-valued metadata record (for any positive minimum-count configuration,
the source default being 1). -/
theorem claim_c6_metadata_totality :
    (∀ (ops : GeoUtils.TrigOps) (site : SensorLabels.Site) (T : ℚ) (adtf hdn : Bool)
        (c f r : ℚ) (m : ℕ), 0 < m →
      SensorLabels.build_fire_label ops site T ⟨[], adtf, hdn⟩ c f m r =
        (0, { num_detections := 0, max_brightness := 0, avg_brightness := 0, max_frp := 0,
              future_window := (T, T + SensorLabels.PREDICTION_HORIZON_HOURS) })) ∧
    (∀ (ops : GeoUtils.TrigOps) (site : SensorLabels.Site) (T : ℚ) (tdt : Bool)
        (mm r : ℚ) (m : ℕ), 0 < m →
      SensorLabels.build_quake_label ops site T ⟨[], tdt⟩ mm m r =
        (0, { num_events := 0, max_magnitude := 0, avg_magnitude := 0, num_significant := 0,
              future_window := (T, T + SensorLabels.PREDICTION_HORIZON_HOURS) })) ∧
    (∀ (ops : GeoUtils.TrigOps) (site : SensorLabels.Site) (T : ℚ)
        (df : SensorLabels.FirmsDF) (c f r : ℚ) (m : ℕ), 0 < m →
      SensorLabels.future_fires ops site T df c f r = [] →
      SensorLabels.build_fire_label ops site T df c f m r =
        (0, { num_detections := 0, max_brightness := 0, avg_brightness := 0, max_frp := 0,
              future_window := (T, T + SensorLabels.PREDICTION_HORIZON_HOURS) })) ∧
    (∀ (ops : GeoUtils.TrigOps) (site : SensorLabels.Site) (T : ℚ)
        (df : SensorLabels.UsgsDF) (mm r : ℚ) (m : ℕ), 0 < m →
      SensorLabels.future_quakes ops site T df mm r = [] →
      SensorLabels.build_quake_label ops site T df mm m r =
        (0, { num_events := 0, max_magnitude := 0, avg_magnitude := 0, num_significant := 0,
              future_window := (T, T + SensorLabels.PREDICTION_HORIZON_HOURS) })) := by
  have hgenf : ∀ (ops : GeoUtils.TrigOps) (site : SensorLabels.Site) (T : ℚ)
      (df : SensorLabels.FirmsDF) (c f r : ℚ) (m : ℕ), 0 < m →
      SensorLabels.future_fires ops site T df c f r = [] →
      SensorLabels.build_fire_label ops site T df c f m r =
        (0, { num_detections := 0, max_brightness := 0, avg_brightness := 0, max_frp := 0,
              future_window := (T, T + SensorLabels.PREDICTION_HORIZON_HOURS) }) := by
    intro ops site T df c f r m hm hff
    have hm0 : ¬ (m ≤ 0) := by omega
    simp [SensorLabels.build_fire_label, hff, hm0]
  have hgenq : ∀ (ops : GeoUtils.TrigOps) (site : SensorLabels.Site) (T : ℚ)
      (df : SensorLabels.UsgsDF) (mm r : ℚ) (m : ℕ), 0 < m →
      SensorLabels.future_quakes ops site T df mm r = [] →
      SensorLabels.build_quake_label ops site T df mm m r =
        (0, { num_events := 0, max_magnitude := 0, avg_magnitude := 0, num_significant := 0,
              future_window := (T, T + SensorLabels.PREDICTION_HORIZON_HOURS) }) := by
    intro ops site T df mm r m hm hff
    have hm0 : ¬ (m ≤ 0) := by omega
    simp [SensorLabels.build_quake_label, hff, hm0]
  refine ⟨?_, ?_, hgenf, hgenq⟩
  · intro ops site T adtf hdn c f r m hm
    refine hgenf ops site T ⟨[], adtf, hdn⟩ c f r m hm ?_
    rw [SensorLabels.future_fires_eq_filter]
    rfl
  · intro ops site T tdt mm r m hm
    refine hgenq ops site T ⟨[], tdt⟩ mm r m hm ?_
    rw [SensorLabels.future_quakes_eq_filter]
    rfl

theorem claim_c6_metadata_totality_witness :
    SensorLabels.build_fire_label (Fixtures.opsConst 40) Fixtures.laSite 0 ⟨[], true, false⟩
        70 30 1 100 =
      (0, { num_detections := 0, max_brightness := 0, avg_brightness := 0, max_frp := 0,
            future_window := (0, 0 + SensorLabels.PREDICTION_HORIZON_HOURS) }) :=
  claim_c6_metadata_totality.1 (Fixtures.opsConst 40) Fixtures.laSite 0 true false 70 30 100 1
    (by norm_num)

theorem adjust_fire_reduce_bounds (temp_mean humidity_mean humidity_min fire_proba : ℚ)
    (h0 : 0 ≤ fire_proba) (h1 : fire_proba ≤ 1) :
    0 ≤ RunSensorForecast.adjust_fire_reduce temp_mean humidity_mean humidity_min fire_proba ∧
    RunSensorForecast.adjust_fire_reduce temp_mean humidity_mean humidity_min fire_proba ≤ 1 := by
  unfold RunSensorForecast.adjust_fire_reduce
  split_ifs <;> constructor <;> nlinarith

theorem adjust_fire_increase_bounds (temp_mean humidity_min g : ℚ)
    (h0 : 0 ≤ g) (h1 : g ≤ 1) :
    0 ≤ RunSensorForecast.adjust_fire_increase temp_mean humidity_min g ∧
    RunSensorForecast.adjust_fire_increase temp_mean humidity_min g ≤ 1 := by
  unfold RunSensorForecast.adjust_fire_increase
  split_ifs
  · exact ⟨le_min (by nlinarith) (by norm_num), min_le_right _ _⟩
  · exact ⟨le_min (by nlinarith) (by norm_num), min_le_right _ _⟩
  · exact ⟨h0, h1⟩

theorem combined_proba_bounds (a b : ℚ) (ha0 : 0 ≤ a) (ha1 : a ≤ 1)
    (hb0 : 0 ≤ b) (hb1 : b ≤ 1) :
    0 ≤ RunSensorForecast.combined_proba a b ∧ RunSensorForecast.combined_proba a b ≤ 1 := by
  unfold RunSensorForecast.combined_proba
  constructor <;> nlinarith

/-- C8: for model probabilities in [0,1] and any weather feature values, the
physics-based adjustment chains of predict_dual_risk keep the fire probability
in [0,1], and the combined probability 1 − (1 − fire)(1 − quake) built from
the adjusted value also lies in [0,1]. -/
theorem claim_c8_probability_range_preserved :
    ∀ (temp_mean humidity_mean humidity_min fire_proba quake_proba : ℚ),
      0 ≤ fire_proba → fire_proba ≤ 1 → 0 ≤ quake_proba → quake_proba ≤ 1 →
      0 ≤ RunSensorForecast.adjust_fire_proba temp_mean humidity_mean humidity_min fire_proba ∧
      RunSensorForecast.adjust_fire_proba temp_mean humidity_mean humidity_min fire_proba ≤ 1 ∧
      0 ≤ RunSensorForecast.combined_proba
          (RunSensorForecast.adjust_fire_proba temp_mean humidity_mean humidity_min fire_proba)
          quake_proba ∧
      RunSensorForecast.combined_proba
          (RunSensorForecast.adjust_fire_proba temp_mean humidity_mean humidity_min fire_proba)
          quake_proba ≤ 1 := by
  intro t hm hmin f q hf0 hf1 hq0 hq1
  simp only [RunSensorForecast.adjust_fire_proba]
  obtain ⟨hr0, hr1⟩ := adjust_fire_reduce_bounds t hm hmin f hf0 hf1
  obtain ⟨hi0, hi1⟩ := adjust_fire_increase_bounds t hmin _ hr0 hr1
  obtain ⟨hc0, hc1⟩ := combined_proba_bounds _ q hi0 hi1 hq0 hq1
  exact ⟨hi0, hi1, hc0, hc1⟩

theorem claim_c8_probability_range_preserved_witness :
    0 ≤ RunSensorForecast.adjust_fire_proba 20 50 30 (1 / 2) ∧
    RunSensorForecast.adjust_fire_proba 20 50 30 (1 / 2) ≤ 1 ∧
    0 ≤ RunSensorForecast.combined_proba
        (RunSensorForecast.adjust_fire_proba 20 50 30 (1 / 2)) (1 / 2) ∧
    RunSensorForecast.combined_proba
        (RunSensorForecast.adjust_fire_proba 20 50 30 (1 / 2)) (1 / 2) ≤ 1 :=
  claim_c8_probability_range_preserved 20 50 30 (1 / 2) (1 / 2)
    (by norm_num) (by norm_num) (by norm_num) (by norm_num)

theorem future_fires_ensure (ops : GeoUtils.TrigOps) (site : SensorLabels.Site) (T : ℚ)
    (df : SensorLabels.FirmsDF) (c f r : ℚ) :
    SensorLabels.future_fires ops site T (SensorLabels.ensure_datetime_firms df) c f r =
      SensorLabels.future_fires ops site T df c f r := by
  rw [SensorLabels.future_fires_eq_filter, SensorLabels.future_fires_eq_filter,
    SensorLabels.ensure_datetime_firms_events, SensorLabels.ensure_datetime_firms_has_daynight]

theorem future_quakes_ensure (ops : GeoUtils.TrigOps) (site : SensorLabels.Site) (T : ℚ)
    (df : SensorLabels.UsgsDF) (mm r : ℚ) :
    SensorLabels.future_quakes ops site T (SensorLabels.ensure_datetime_usgs df) mm r =
      SensorLabels.future_quakes ops site T df mm r := by
  rw [SensorLabels.future_quakes_eq_filter, SensorLabels.future_quakes_eq_filter,
    SensorLabels.ensure_datetime_usgs_events]

/-- C9: the label builders and historical feature extractors leave the
caller's event store unchanged — the caller-visible store after each call is
the input store (the dtype conversion happens on a copy), and computing on
the converted copy yields exactly the result the caller's store determines,
so the conversion loses nothing. -/
theorem claim_c9_event_store_not_mutated :
    (∀ (ops : GeoUtils.TrigOps) (site : SensorLabels.Site) (T : ℚ)
        (df : SensorLabels.FirmsDF) (c f : ℚ) (m : ℕ) (r : ℚ),
      (SensorLabels.build_fire_label_call ops site T df c f m r).2 = df) ∧
    (∀ (ops : GeoUtils.TrigOps) (site : SensorLabels.Site) (T : ℚ)
        (df : SensorLabels.UsgsDF) (mm : ℚ) (m : ℕ) (r : ℚ),
      (SensorLabels.build_quake_label_call ops site T df mm m r).2 = df) ∧
    (∀ (ops : GeoUtils.TrigOps) (site : SensorLabels.Site) (T : ℚ)
        (df : SensorLabels.FirmsDF) (ls ll : ℕ),
      (SensorFeatures.extract_firms_historical_features_call ops site T df ls ll).2 = df) ∧
    (∀ (ops : GeoUtils.TrigOps) (site : SensorLabels.Site) (T : ℚ)
        (df : SensorLabels.UsgsDF) (ls ll : ℕ) (mm : ℚ),
      (SensorFeatures.extract_usgs_historical_features_call ops site T df ls ll mm).2 = df) ∧
    (∀ (ops : GeoUtils.TrigOps) (site : SensorLabels.Site) (T : ℚ)
        (df : SensorLabels.FirmsDF) (c f : ℚ) (m : ℕ) (r : ℚ),
      SensorLabels.build_fire_label ops site T (SensorLabels.ensure_datetime_firms df) c f m r =
        SensorLabels.build_fire_label ops site T df c f m r) ∧
    (∀ (ops : GeoUtils.TrigOps) (site : SensorLabels.Site) (T : ℚ)
        (df : SensorLabels.UsgsDF) (mm : ℚ) (m : ℕ) (r : ℚ),
      SensorLabels.build_quake_label ops site T (SensorLabels.ensure_datetime_usgs df) mm m r =
        SensorLabels.build_quake_label ops site T df mm m r) := by
  refine ⟨fun _ _ _ _ _ _ _ _ => rfl, fun _ _ _ _ _ _ _ => rfl,
    fun _ _ _ _ _ _ => rfl, fun _ _ _ _ _ _ _ => rfl, ?_, ?_⟩
  · intro ops site T df c f m r
    simp only [SensorLabels.build_fire_label]
    rw [future_fires_ensure]
  · intro ops site T df mm m r
    simp only [SensorLabels.build_quake_label]
    rw [future_quakes_ensure]

theorem accumulate_points_length (c : ℚ) (ps : List RouteRisk.RoutePoint) :
    (RouteRisk.accumulate_points c ps).length = ps.length := by
  induction ps generalizing c with
  | nil => rfl
  | cons p ps ih => simp [RouteRisk.accumulate_points, ih]

theorem accumulate_points_get (ps : List RouteRisk.RoutePoint) :
    ∀ (c : ℚ) (k : ℕ) (hk : k < (RouteRisk.accumulate_points c ps).length),
      ((RouteRisk.accumulate_points c ps).get ⟨k, hk⟩).accumulated_risk =
        (1 - (1 - c) * ((ps.take (k + 1)).map (fun p => 1 - p.combined_risk / 100)).prod) *
          100 := by
  induction ps with
  | nil =>
    intro c k hk
    simp [RouteRisk.accumulate_points] at hk
  | cons p ps ih =>
    intro c k hk
    cases k with
    | zero =>
      simp [RouteRisk.accumulate_points]
    | succ k =>
      have hk' : k <
          (RouteRisk.accumulate_points (1 - (1 - c) * (1 - p.combined_risk / 100)) ps).length := by
        have := hk
        simp [RouteRisk.accumulate_points] at this
        simpa [accumulate_points_length] using this
      have hg := ih (1 - (1 - c) * (1 - p.combined_risk / 100)) k hk'
      simp only [RouteRisk.accumulate_points, List.get_cons_succ, List.take_succ_cons,
        List.map_cons, List.prod_cons] at hg ⊢
      rw [hg]
      ring

theorem prod_take_succ_le :
    ∀ (q : List ℚ), (∀ x ∈ q, 0 ≤ x ∧ x ≤ 1) →
      ∀ k : ℕ, (q.take (k + 1)).prod ≤ (q.take k).prod := by
  intro q
  induction q with
  | nil =>
    intro _ k
    simp
  | cons a q ih =>
    intro hq k
    cases k with
    | zero =>
      simpa using (hq a (List.mem_cons_self a q)).2
    | succ k =>
      simp only [List.take_succ_cons, List.prod_cons]
      exact mul_le_mul_of_nonneg_left
        (ih (fun x hx => hq x (List.mem_cons_of_mem a hx)) k)
        (hq a (List.mem_cons_self a q)).1

/-- C10: with all waypoint combined risks in [0,100], the per-point
accumulation of calculate_accumulated_risk assigns waypoint k the value
(1 − ∏ over the first k+1 waypoints of (1 − combined_risk/100)) · 100, the
accumulated values are non-decreasing along the route, and the last
waypoint's accumulated risk equals the route's aggregated combined risk. -/
theorem claim_c10_accumulated_risk (route : RouteRisk.Route)
    (h : ∀ p ∈ route.points, 0 ≤ p.combined_risk ∧ p.combined_risk ≤ 100) :
    (∀ (k : ℕ) (hk : k < (RouteRisk.calculate_accumulated_risk route).points.length),
      (((RouteRisk.calculate_accumulated_risk route).points).get ⟨k, hk⟩).accumulated_risk =
        (1 - ((route.points.take (k + 1)).map (fun p => 1 - p.combined_risk / 100)).prod) *
          100) ∧
    List.Chain' (fun a b => a.accumulated_risk ≤ b.accumulated_risk)
      (RouteRisk.calculate_accumulated_risk route).points ∧
    (∀ hne : (RouteRisk.calculate_accumulated_risk route).points ≠ [],
      ((RouteRisk.calculate_accumulated_risk route).points.getLast hne).accumulated_risk =
        (RouteRisk.calculate_accumulated_risk route).aggregated_combined_risk) := by
  have hfacts : ∀ x ∈ route.points.map (fun p => 1 - p.combined_risk / 100),
      0 ≤ x ∧ x ≤ 1 := by
    intro x hx
    simp only [List.mem_map] at hx
    obtain ⟨p, hp, rfl⟩ := hx
    obtain ⟨hc0, hc1⟩ := h p hp
    constructor <;> linarith
  refine ⟨?_, ?_, ?_⟩
  · intro k hk
    have hk' : k < (RouteRisk.accumulate_points 0 route.points).length := hk
    have hg := accumulate_points_get route.points 0 k hk'
    show ((RouteRisk.accumulate_points 0 route.points).get ⟨k, hk'⟩).accumulated_risk = _
    rw [hg]
    ring
  · show List.Chain' _ (RouteRisk.accumulate_points 0 route.points)
    rw [List.chain'_iff_get]
    intro i hi
    have h1 : i < (RouteRisk.accumulate_points 0 route.points).length := by omega
    have h2 : i + 1 < (RouteRisk.accumulate_points 0 route.points).length := by omega
    rw [accumulate_points_get route.points 0 i h1,
      accumulate_points_get route.points 0 (i + 1) h2]
    have hmono := prod_take_succ_le
      (route.points.map fun p => 1 - p.combined_risk / 100) hfacts (i + 1)
    rw [← List.map_take, ← List.map_take] at hmono
    nlinarith [hmono]
  · intro hne
    have hne' : RouteRisk.accumulate_points 0 route.points ≠ [] := hne
    have hlen : 0 < (RouteRisk.accumulate_points 0 route.points).length :=
      List.length_pos.mpr hne'
    have hk : (RouteRisk.accumulate_points 0 route.points).length - 1 <
        (RouteRisk.accumulate_points 0 route.points).length := by omega
    have hgl : (RouteRisk.accumulate_points 0 route.points).getLast hne' =
        (RouteRisk.accumulate_points 0 route.points).get
          ⟨(RouteRisk.accumulate_points 0 route.points).length - 1, hk⟩ := by
      rw [List.getLast_eq_getElem]
      rfl
    show ((RouteRisk.accumulate_points 0 route.points).getLast hne').accumulated_risk = _
    rw [hgl, accumulate_points_get route.points 0 _ hk]
    have hsucc : (RouteRisk.accumulate_points 0 route.points).length - 1 + 1 =
        route.points.length := by
      rw [accumulate_points_length] at hlen ⊢
      omega
    rw [hsucc, List.take_length]
    show _ = RouteRisk.combine (route.points.map fun p => p.combined_risk / 100) * 100
    simp only [RouteRisk.combine, List.map_map, Function.comp_def]
    ring

theorem claim_c10_accumulated_risk_witness :
    (∀ (k : ℕ)
      (hk : k < (RouteRisk.calculate_accumulated_risk Fixtures.sampleRoute).points.length),
      (((RouteRisk.calculate_accumulated_risk Fixtures.sampleRoute).points).get
          ⟨k, hk⟩).accumulated_risk =
        (1 - ((Fixtures.sampleRoute.points.take (k + 1)).map
          (fun p => 1 - p.combined_risk / 100)).prod) * 100) ∧
    List.Chain' (fun a b => a.accumulated_risk ≤ b.accumulated_risk)
      (RouteRisk.calculate_accumulated_risk Fixtures.sampleRoute).points ∧
    (∀ hne : (RouteRisk.calculate_accumulated_risk Fixtures.sampleRoute).points ≠ [],
      ((RouteRisk.calculate_accumulated_risk Fixtures.sampleRoute).points.getLast
          hne).accumulated_risk =
        (RouteRisk.calculate_accumulated_risk Fixtures.sampleRoute).aggregated_combined_risk) :=
  claim_c10_accumulated_risk Fixtures.sampleRoute (by
    intro p hp
    simp only [Fixtures.sampleRoute, List.mem_cons, List.not_mem_nil, or_false] at hp
    rcases hp with rfl | rfl | rfl <;> norm_num)
